import Mathlib

/-!
# Verification of the forge-cli generated-python-lambda service

A shallow embedding of `src/examples/generated-python-lambda/service`:
the request/response data model, the pydantic validation rules, the
business logic (`process_request`), the DynamoDB data-access layer, and
the request handler pipeline, together with theorems settling the spec
claims about them.

Randomness (`uuid.uuid4()`) is modelled by threading an arbitrary
128-bit seed; the fallible DynamoDB `put_item` call is modelled by a
save-effect parameter so that persistence failures can be injected.
-/

namespace Service

/-! ## UUID generation (model of `str(uuid.uuid4())`)

CPython's `uuid.uuid4()` draws 16 random bytes, forces the version
nibble (bits 76–79) to 4 and the variant bits (62–63) to `10`, and
formats the resulting 128-bit integer as 32 lowercase hex digits in
five dash-separated groups of 8-4-4-4-12. -/

/-- Lowercase hexadecimal digit for `n % 16` (matches Python's `%x`). -/
def toHexChar (n : Nat) : Char :=
  if n < 10 then Char.ofNat (48 + n) else Char.ofNat (87 + n)

/-- Fixed-width big-endian lowercase hex rendering of `n` (width `w`),
matching Python's zero-padded `'%0{w}x' % n` for `n < 16 ^ w`. -/
def hexChars : Nat → Nat → List Char
  | 0, _ => []
  | w + 1, n => hexChars w (n / 16) ++ [toHexChar (n % 16)]

/-- Overwrite `width` bits of `n` starting at bit `lo` with value `v`. -/
def setBits (n lo width v : Nat) : Nat :=
  n - n / 2 ^ lo % 2 ^ width * 2 ^ lo + v * 2 ^ lo

/-- The 128-bit integer underlying `uuid.uuid4()` for random seed `r`:
the seed truncated to 128 bits with the version nibble (bits 76–79)
set to `4` and the RFC 4122 variant bits (62–63) set to `0b10`. -/
def uuid4Int (r : Nat) : Nat :=
  setBits (setBits (r % 2 ^ 128) 76 4 4) 62 2 2

/-- `str(uuid.uuid4())` for seed `r`: the 32 hex digits of `uuid4Int r`
in groups of 8-4-4-4-12 separated by dashes. -/
def uuid4String (r : Nat) : String :=
  ⟨hexChars 8 (uuid4Int r / 16 ^ 24) ++ '-' ::
    (hexChars 4 (uuid4Int r / 16 ^ 20) ++ '-' ::
      (hexChars 4 (uuid4Int r / 16 ^ 16) ++ '-' ::
        (hexChars 4 (uuid4Int r / 16 ^ 12) ++ '-' ::
          hexChars 12 (uuid4Int r))))⟩

/-- Lowercase hexadecimal digit test. -/
def isHexDigitChar (c : Char) : Bool :=
  ('0' ≤ c && c ≤ '9') || ('a' ≤ c && c ≤ 'f')

/-- Split a character list on `'-'` separators. -/
def splitDash : List Char → List (List Char)
  | [] => [[]]
  | c :: rest =>
    if c = '-' then [] :: splitDash rest
    else
      match splitDash rest with
      | [] => [[c]]
      | g :: gs => (c :: g) :: gs

/-- A UUID group: exactly `w` lowercase hex digits. -/
def isUUIDGroup (l : List Char) (w : Nat) : Bool :=
  l.length = w && l.all isHexDigitChar

/-- Dash-separated groups of a well-formed textual UUID: five groups
of lowercase hex digits with lengths 8, 4, 4, 4 and 12. -/
def validGroups : List (List Char) → Bool
  | [a, b, c, d, e] =>
    isUUIDGroup a 8 && isUUIDGroup b 4 && isUUIDGroup c 4 &&
      isUUIDGroup d 4 && isUUIDGroup e 12
  | _ => false

/-- A well-formed textual UUID: five dash-separated groups of
lowercase hex digits with lengths 8, 4, 4, 4 and 12. -/
def isValidUUIDString (s : String) : Bool :=
  validGroups (splitDash s.data)

/-! ## Data model (`service/models`, `service/dal/models/db.py`) -/

/-- `RequestInput` (`service/models/input.py`): `name` is a string of
1–100 characters, `count` a strictly positive integer. -/
structure RequestInput where
  name : String
  count : Int
deriving Repr, DecidableEq

/-- Pydantic validation of `RequestInput`: field constraints
`min_length=1`, `max_length=100` on `name`, strict integer `count`
with the `check_count` validator rejecting `count ≤ 0`. -/
def RequestInput.validate (name : String) (count : Int) :
    Except String RequestInput :=
  if name.length < 1 then
    .error "String should have at least 1 character"
  else if name.length > 100 then
    .error "String should have at most 100 characters"
  else if count ≤ 0 then
    .error "count must be larger than 0"
  else
    .ok { name := name, count := count }

/-- `RequestOutput` (`service/models/output.py`). -/
structure RequestOutput where
  id : String
  name : String
  count : Int
  status : String
deriving Repr, DecidableEq

/-- `ErrorOutput` (`service/models/output.py`). -/
structure ErrorOutput where
  error : String
  details : Option String := none
deriving Repr, DecidableEq

/-- `DBItem` (`service/dal/models/db.py`): the persisted record,
keyed by `id`. -/
structure DBItem where
  id : String
  name : String
  count : Int
  status : String
deriving Repr, DecidableEq

/-! ## Data access layer (`service/dal/dynamodb_handler.py`)

The DAL functions are pass-throughs to the managed store.
Modelled from the spec: the key-value store itself is an external
managed service (DynamoDB); a table is a set of records keyed by
`id`, `put_item` writes/overwrites the record with the item's key,
`get_item` looks a record up by key, `delete_item` removes it. -/

/-- The managed key-value store: table contents by table name. -/
def Store := String → List DBItem

/-- The store with every table empty. -/
def emptyStore : Store := fun _ => []

/-- Replace the contents of one named table. -/
def putTable (s : Store) (tableName : String) (t : List DBItem) : Store :=
  fun n => if n = tableName then t else s n

/-- Modelled from the spec: DynamoDB `put_item` — write the item,
overwriting any record with the same primary key. -/
def dynamoPut (t : List DBItem) (item : DBItem) : List DBItem :=
  item :: t.filter (fun r => r.id ≠ item.id)

/-- Modelled from the spec: DynamoDB `get_item` — the record with the
given key, or an absence indicator (`None`) when none exists. -/
def dynamoGet (t : List DBItem) (key : String) : Option DBItem :=
  t.find? (fun r => r.id = key)

/-- Modelled from the spec: DynamoDB `delete_item` — remove the record
with the given key. -/
def dynamoDelete (t : List DBItem) (key : String) : List DBItem :=
  t.filter (fun r => r.id ≠ key)

/-- `save_item(table_name, item)`: pass the item through to the named
table's `put_item`. -/
def save_item (store : Store) (table_name : String) (item : DBItem) : Store :=
  putTable store table_name (dynamoPut (store table_name) item)

/-- `get_item(table_name, key)`: pass the key through to the named
table's `get_item`, returning the record or `none`. -/
def get_item (store : Store) (table_name : String) (key : String) :
    Option DBItem :=
  dynamoGet (store table_name) key

/-- `delete_item(table_name, key)`: pass the key through to the named
table's `delete_item`. -/
def delete_item (store : Store) (table_name : String) (key : String) : Store :=
  putTable store table_name (dynamoDelete (store table_name) key)

/-! ## Business logic (`service/logic/business_logic.py`) -/

/-- One invocation of `save_item` recorded by the business logic:
the table name passed and the item passed. -/
structure SaveCall where
  table_name : String
  item : DBItem
deriving Repr, DecidableEq

/-- Python truthiness of an `str | None` value: `None` and the empty
string are falsy, every other string truthy. -/
def pyTruthy : Option String → Bool
  | none => false
  | some s => !s.isEmpty

/-- The outcome of one `table.put_item` call: `ok` or an exception
(store unreachable, throttled, …), injected as a parameter. -/
def SaveEffect := String → DBItem → Except String Unit

/-- A store that accepts every write. -/
def saveOk : SaveEffect := fun _ _ => .ok ()

/-- A store whose writes all fail with message `msg`. -/
def saveFail (msg : String) : SaveEffect := fun _ _ => .error msg

/-- `process_request(request_input, table_name, context)`
(`service/logic/business_logic.py`): generate `item_id` from the
seed `r`, build the result record
`{id, name, count, status: "created"}`, save it to DynamoDB only
when `table_name` is truthy (`if table_name:`), and return
`RequestOutput(**result)`. An exception raised by `save_item`
propagates (the `Except.error` case); on success the recorded list
of `save_item` invocations is returned alongside the output. -/
def process_request (request_input : RequestInput)
    (table_name : Option String) (save : SaveEffect) (r : Nat) :
    Except String (RequestOutput × List SaveCall) := do
  let item_id := uuid4String r
  let result : DBItem :=
    { id := item_id
      name := request_input.name
      count := request_input.count
      status := "created" }
  let calls : List SaveCall ←
    match table_name with
    | none => pure []
    | some t =>
      if t.isEmpty then pure []
      else do
        save t result
        pure [{ table_name := t, item := result }]
  pure ({ id := result.id, name := result.name, count := result.count,
          status := result.status }, calls)

/-- Replay a list of recorded `save_item` invocations against a store. -/
def applyCalls (store : Store) (calls : List SaveCall) : Store :=
  calls.foldl (fun s c => save_item s c.table_name c.item) store

/-! ## Environment configuration (`service/handlers/models/env_vars.py`) -/

/-- `HandlerEnvVars`: the validated environment, inheriting
`Observability` (`POWERTOOLS_SERVICE_NAME`, `LOG_LEVEL`) and
`Idempotency` (`IDEMPOTENCY_TABLE_NAME`) and adding `TABLE_NAME`. -/
structure HandlerEnvVars where
  POWERTOOLS_SERVICE_NAME : String
  LOG_LEVEL : String
  IDEMPOTENCY_TABLE_NAME : String
  TABLE_NAME : String
deriving Repr, DecidableEq

/-- Look a key up in the raw process environment. -/
def lookupEnv (env : List (String × String)) (k : String) : Option String :=
  (env.find? (fun p => p.1 = k)).map (fun p => p.2)

/-- The `Literal` values accepted for `LOG_LEVEL`. -/
def logLevels : List String :=
  ["DEBUG", "INFO", "ERROR", "CRITICAL", "WARNING"]

/-- Pydantic validation of `HandlerEnvVars` over the raw environment
(performed by `init_environment_variables` /
`get_environment_variables`): all four variables must be present,
the three names must have `min_length=1`, and `LOG_LEVEL` must be
one of the five literals. -/
def parseEnv (env : List (String × String)) : Except String HandlerEnvVars :=
  match lookupEnv env "POWERTOOLS_SERVICE_NAME", lookupEnv env "LOG_LEVEL",
      lookupEnv env "IDEMPOTENCY_TABLE_NAME", lookupEnv env "TABLE_NAME" with
  | some sn, some ll, some it, some tn =>
    if sn.length < 1 then .error "POWERTOOLS_SERVICE_NAME: too short"
    else if !(logLevels.contains ll) then .error "LOG_LEVEL: invalid literal"
    else if it.length < 1 then .error "IDEMPOTENCY_TABLE_NAME: too short"
    else if tn.length < 1 then .error "TABLE_NAME: too short"
    else .ok { POWERTOOLS_SERVICE_NAME := sn, LOG_LEVEL := ll,
               IDEMPOTENCY_TABLE_NAME := it, TABLE_NAME := tn }
  | _, _, _, _ => .error "missing environment variable"

/-- `hasattr(env_vars, 'TABLE_NAME')`: a validated pydantic model
instance always carries every declared required field, so this is
`True` for any `HandlerEnvVars`. -/
def hasTableNameAttr (_ : HandlerEnvVars) : Bool := true

/-- The argument `env_vars.TABLE_NAME if hasattr(env_vars, 'TABLE_NAME')
else None` passed by `handle_request` to `process_request`. -/
def tableNameArg (e : HandlerEnvVars) : Option String :=
  if hasTableNameAttr e then some e.TABLE_NAME else none

/-! ## Request handler (`service/handlers/handle_request.py`) -/

/-- The HTTP-level outcome produced by the gateway resolver.
Modelled from the spec: the gateway abstraction
(`APIGatewayHttpResolver`, an external library) returns the
`RequestOutput` with HTTP 200 on success, a client-error
`ErrorOutput` when request-body validation fails, and a generic
HTTP 500 `ErrorOutput` when an unhandled exception escapes the
route function. -/
inductive HandlerResult where
  | success (body : RequestOutput)
  | failure (body : ErrorOutput) (code : Nat)
deriving Repr, DecidableEq

/-- The HTTP status code of a handler outcome (200 on success). -/
def HandlerResult.statusCode : HandlerResult → Nat
  | .success _ => 200
  | .failure _ c => c

/-- One full invocation of the lambda: validate the environment
(`init_environment_variables`, HTTP 500 on failure), validate the
request body against `RequestInput` (client error 422 on failure,
before any business logic), then run `handle_request`, which calls
`process_request` with `tableNameArg env_vars`; an exception
escaping it becomes a generic HTTP 500. Returns the HTTP outcome
and the list of `save_item` invocations that completed. -/
def runPipeline (env : List (String × String)) (name : String) (count : Int)
    (save : SaveEffect) (r : Nat) : HandlerResult × List SaveCall :=
  match parseEnv env with
  | .error e => (.failure { error := e } 500, [])
  | .ok envVars =>
    match RequestInput.validate name count with
    | .error e =>
      (.failure { error := "Validation error", details := some e } 422, [])
    | .ok input =>
      match process_request input (tableNameArg envVars) save r with
      | .error _ => (.failure { error := "Internal Server Error" } 500, [])
      | .ok (out, calls) => (.success out, calls)

/-! ## Helper lemmas: hex rendering and UUID shape -/

theorem toHexChar_hexDigit : ∀ m < 16, isHexDigitChar (toHexChar m) = true := by
  decide

theorem toHexChar_inj : ∀ a < 16, ∀ b < 16, toHexChar a = toHexChar b → a = b := by
  decide

theorem mod_mul_decomp (n a b : Nat) : n % (a * b) = a * (n / a % b) + n % a := by
  conv_lhs => rw [← Nat.div_add_mod (n % (a * b)) a]
  rw [Nat.mod_mul_right_div_self, Nat.mod_mod_of_dvd n ⟨b, rfl⟩]

theorem uuid4Int_lt (r : Nat) : uuid4Int r < 2 ^ 128 := by
  unfold uuid4Int setBits
  omega

theorem hexChars_length (w n : Nat) : (hexChars w n).length = w := by
  induction w generalizing n with
  | zero => rfl
  | succ w ih => simp [hexChars, ih]

theorem hexChars_all_hex (w n : Nat) :
    ∀ c ∈ hexChars w n, isHexDigitChar c = true := by
  induction w generalizing n with
  | zero => intro c hc; simp [hexChars] at hc
  | succ w ih =>
    intro c hc
    simp only [hexChars, List.mem_append, List.mem_singleton] at hc
    rcases hc with hc | hc
    · exact ih _ c hc
    · subst hc; exact toHexChar_hexDigit _ (Nat.mod_lt n (by decide))

theorem hexDigit_ne_dash (c : Char) (h : isHexDigitChar c = true) : c ≠ '-' := by
  intro hEq; subst hEq; exact absurd h (by decide)

theorem hexChars_no_dash (w n : Nat) : ∀ c ∈ hexChars w n, c ≠ '-' :=
  fun c hc => hexDigit_ne_dash c (hexChars_all_hex w n c hc)

theorem splitDash_no_dash (l : List Char) (h : ∀ c ∈ l, c ≠ '-') :
    splitDash l = [l] := by
  induction l with
  | nil => rfl
  | cons c rest ih =>
    have hc : c ≠ '-' := h c (by simp)
    have hrest := ih (fun x hx => h x (by simp [hx]))
    simp [splitDash, hc, hrest]

theorem splitDash_append (a rest : List Char) (h : ∀ c ∈ a, c ≠ '-') :
    splitDash (a ++ '-' :: rest) = a :: splitDash rest := by
  induction a with
  | nil => simp [splitDash]
  | cons c as ih =>
    have hc : c ≠ '-' := h c (by simp)
    have ih' := ih (fun x hx => h x (by simp [hx]))
    simp [splitDash, hc, ih']

theorem hexChars_inj (w : Nat) : ∀ n m : Nat, hexChars w n = hexChars w m →
    n % 16 ^ w = m % 16 ^ w := by
  induction w with
  | zero => intro n m _; simp [Nat.mod_one]
  | succ w ih =>
    intro n m h
    simp only [hexChars] at h
    have hl : (hexChars w (n / 16)).length = (hexChars w (m / 16)).length := by
      rw [hexChars_length, hexChars_length]
    obtain ⟨h1, h2⟩ := List.append_inj h hl
    injection h2 with h2a _
    have hd : n % 16 = m % 16 :=
      toHexChar_inj _ (Nat.mod_lt n (by decide)) _ (Nat.mod_lt m (by decide)) h2a
    have hq := ih _ _ h1
    have en : n % 16 ^ (w + 1) = 16 * (n / 16 % 16 ^ w) + n % 16 := by
      rw [pow_succ']; exact mod_mul_decomp n 16 (16 ^ w)
    have em : m % 16 ^ (w + 1) = 16 * (m / 16 % 16 ^ w) + m % 16 := by
      rw [pow_succ']; exact mod_mul_decomp m 16 (16 ^ w)
    omega

theorem splitDash_uuid4 (r : Nat) : splitDash (uuid4String r).data =
    [hexChars 8 (uuid4Int r / 16 ^ 24), hexChars 4 (uuid4Int r / 16 ^ 20),
     hexChars 4 (uuid4Int r / 16 ^ 16), hexChars 4 (uuid4Int r / 16 ^ 12),
     hexChars 12 (uuid4Int r)] := by
  show splitDash (hexChars 8 (uuid4Int r / 16 ^ 24) ++ '-' ::
    (hexChars 4 (uuid4Int r / 16 ^ 20) ++ '-' ::
      (hexChars 4 (uuid4Int r / 16 ^ 16) ++ '-' ::
        (hexChars 4 (uuid4Int r / 16 ^ 12) ++ '-' ::
          hexChars 12 (uuid4Int r))))) = _
  rw [splitDash_append _ _ (hexChars_no_dash _ _),
      splitDash_append _ _ (hexChars_no_dash _ _),
      splitDash_append _ _ (hexChars_no_dash _ _),
      splitDash_append _ _ (hexChars_no_dash _ _),
      splitDash_no_dash _ (hexChars_no_dash _ _)]

theorem uuid4String_valid (r : Nat) : isValidUUIDString (uuid4String r) = true := by
  show validGroups (splitDash (uuid4String r).data) = true
  rw [splitDash_uuid4 r]
  show (isUUIDGroup (hexChars 8 (uuid4Int r / 16 ^ 24)) 8 &&
    isUUIDGroup (hexChars 4 (uuid4Int r / 16 ^ 20)) 4 &&
    isUUIDGroup (hexChars 4 (uuid4Int r / 16 ^ 16)) 4 &&
    isUUIDGroup (hexChars 4 (uuid4Int r / 16 ^ 12)) 4 &&
    isUUIDGroup (hexChars 12 (uuid4Int r)) 12) = true
  simp only [isUUIDGroup, hexChars_length, List.all_eq_true]
  simp only [Bool.and_eq_true, decide_eq_true_eq, List.all_eq_true]
  exact ⟨⟨⟨⟨⟨trivial, hexChars_all_hex _ _⟩, ⟨trivial, hexChars_all_hex _ _⟩⟩,
    ⟨trivial, hexChars_all_hex _ _⟩⟩, ⟨trivial, hexChars_all_hex _ _⟩⟩,
    ⟨trivial, hexChars_all_hex _ _⟩⟩

theorem uuid4String_inj (r1 r2 : Nat) (h : uuid4Int r1 ≠ uuid4Int r2) :
    uuid4String r1 ≠ uuid4String r2 := by
  intro heq
  apply h
  have hdata : (uuid4String r1).data = (uuid4String r2).data := by rw [heq]
  unfold uuid4String at hdata
  simp only [String.data] at hdata
  obtain ⟨e1, rest1⟩ := List.append_inj hdata (by rw [hexChars_length, hexChars_length])
  injection rest1 with _ rest1'
  obtain ⟨e2, rest2⟩ := List.append_inj rest1' (by rw [hexChars_length, hexChars_length])
  injection rest2 with _ rest2'
  obtain ⟨e3, rest3⟩ := List.append_inj rest2' (by rw [hexChars_length, hexChars_length])
  injection rest3 with _ rest3'
  obtain ⟨e4, e5⟩ := List.append_inj rest3' (by rw [hexChars_length, hexChars_length])
  injection e5 with _ e5'
  have q1 := hexChars_inj 8 _ _ e1
  have q2 := hexChars_inj 4 _ _ e2
  have q3 := hexChars_inj 4 _ _ e3
  have q4 := hexChars_inj 4 _ _ e4
  have q5 := hexChars_inj 12 _ _ e5'
  have b1 := uuid4Int_lt r1
  have b2 := uuid4Int_lt r2
  omega

/-! ## Helper lemmas: validation and business-logic evaluation -/

theorem validate_ok_eq {name : String} {count : Int} {input : RequestInput}
    (h : RequestInput.validate name count = .ok input) :
    input.name = name ∧ input.count = count := by
  unfold RequestInput.validate at h
  split_ifs at h
  all_goals first
    | exact Except.noConfusion h
    | (injection h with h'; subst h'; exact ⟨rfl, rfl⟩)

theorem validate_err (name : String) (count : Int)
    (h : count ≤ 0 ∨ name.length = 0 ∨ name.length > 100) :
    ∃ msg, RequestInput.validate name count = .error msg := by
  unfold RequestInput.validate
  split_ifs with h1 h2 h3
  · exact ⟨_, rfl⟩
  · exact ⟨_, rfl⟩
  · exact ⟨_, rfl⟩
  · omega

theorem process_request_none (i : RequestInput) (save : SaveEffect) (r : Nat) :
    process_request i none save r =
      .ok ({ id := uuid4String r, name := i.name, count := i.count,
             status := "created" }, []) := rfl

theorem process_request_some_empty (i : RequestInput) (save : SaveEffect) (r : Nat) :
    process_request i (some "") save r =
      .ok ({ id := uuid4String r, name := i.name, count := i.count,
             status := "created" }, []) := rfl

theorem string_isEmpty_false {t : String} (ht : t ≠ "") : t.isEmpty = false := by
  rw [Bool.eq_false_iff]
  intro hEmp
  exact ht ((String.isEmpty_iff t).mp hEmp)

theorem process_request_save_ok (i : RequestInput) (t : String) (ht : t ≠ "")
    (save : SaveEffect) (r : Nat)
    (hs : save t { id := uuid4String r, name := i.name, count := i.count,
                   status := "created" } = .ok ()) :
    process_request i (some t) save r =
      .ok ({ id := uuid4String r, name := i.name, count := i.count,
             status := "created" },
           [{ table_name := t,
              item := { id := uuid4String r, name := i.name, count := i.count,
                        status := "created" } }]) := by
  unfold process_request
  simp [string_isEmpty_false ht, hs]

theorem process_request_save_err (i : RequestInput) (t : String) (ht : t ≠ "")
    (save : SaveEffect) (r : Nat) (msg : String)
    (hs : save t { id := uuid4String r, name := i.name, count := i.count,
                   status := "created" } = .error msg) :
    process_request i (some t) save r = .error msg := by
  unfold process_request
  simp [string_isEmpty_false ht, hs]

theorem parseEnv_table_len {env : List (String × String)} {e : HandlerEnvVars}
    (h : parseEnv env = .ok e) : 1 ≤ e.TABLE_NAME.length := by
  unfold parseEnv at h
  split at h
  · split_ifs at h with h1 h2 h3 h4
    injection h with h'
    subst h'
    exact Nat.not_lt.mp h4
  · exact Except.noConfusion h

/-! ## Helper lemmas: store operations -/

theorem find?_filter_of_imp (l : List DBItem) (p q : DBItem → Bool)
    (h : ∀ x, p x = true → q x = true) : (l.filter q).find? p = l.find? p := by
  induction l with
  | nil => rfl
  | cons a as ih =>
    by_cases hq : q a = true
    · rw [List.filter_cons_of_pos hq]
      by_cases hp : p a = true
      · rw [List.find?_cons_of_pos _ hp, List.find?_cons_of_pos _ hp]
      · rw [List.find?_cons_of_neg _ (by simp [hp]),
            List.find?_cons_of_neg _ (by simp [hp])]
        exact ih
    · have hp : p a = false := by
        cases hpa : p a
        · rfl
        · exact absurd (h a hpa) hq
      rw [List.filter_cons_of_neg (by simp [hq]),
          List.find?_cons_of_neg _ (by simp [hp])]
      exact ih

theorem get_item_save_item (store : Store) (tn : String) (item : DBItem) :
    get_item (save_item store tn item) tn item.id = some item := by
  unfold get_item save_item putTable dynamoGet dynamoPut
  rw [if_pos rfl]
  rw [List.find?_cons_of_pos _ (by simp)]

theorem get_item_save_item_other (store : Store) (tn : String) (item : DBItem)
    (key : String) (hk : key ≠ item.id) :
    get_item (save_item store tn item) tn key = get_item store tn key := by
  have hk' : item.id ≠ key := fun hEq => hk hEq.symm
  unfold get_item save_item putTable dynamoGet dynamoPut
  rw [if_pos rfl]
  rw [List.find?_cons_of_neg _ (by simp [hk'])]
  refine find?_filter_of_imp _ _ _ ?_
  intro x hx
  simp only [decide_eq_true_eq] at hx
  rw [hx]
  simp [hk]

theorem get_item_delete_item (store : Store) (tn : String) (key : String) :
    get_item (delete_item store tn key) tn key = none := by
  unfold get_item delete_item putTable dynamoGet dynamoDelete
  rw [if_pos rfl]
  rw [List.find?_eq_none]
  intro x hx
  simp only [List.mem_filter, decide_eq_true_eq] at hx
  simp [hx.2]

/-! ## Claim theorems -/

/-- C1: For every valid input (name of length 1 to 100, count > 0),
`process_request` returns an output whose status equals "created",
whose id is a syntactically valid UUID string, and whose name and
count equal the input's name and count; in particular input
{name:"example", count:5} yields output
{id:&lt;uuid&gt;, name:"example", count:5, status:"created"}. -/
theorem c1_valid_input_output (name : String) (count : Int)
    (input : RequestInput)
    (h : RequestInput.validate name count = .ok input)
    (table : Option String) (r : Nat) :
    ∃ out calls, process_request input table saveOk r = .ok (out, calls) ∧
      out.status = "created" ∧ isValidUUIDString out.id = true ∧
      out.name = name ∧ out.count = count := by
  obtain ⟨hn, hc⟩ := validate_ok_eq h
  subst hn
  subst hc
  cases table with
  | none =>
    exact ⟨_, _, process_request_none input saveOk r, rfl,
      uuid4String_valid r, rfl, rfl⟩
  | some t =>
    by_cases ht : t = ""
    · subst ht
      exact ⟨_, _, process_request_some_empty input saveOk r, rfl,
        uuid4String_valid r, rfl, rfl⟩
    · exact ⟨_, _, process_request_save_ok input t ht saveOk r rfl, rfl,
        uuid4String_valid r, rfl, rfl⟩

/-- Witness for C1 at the spec's example input {name:"example", count:5}. -/
theorem c1_valid_input_output_witness :
    RequestInput.validate "example" 5 = .ok { name := "example", count := 5 } ∧
    (∃ out calls,
      process_request { name := "example", count := 5 } (some "orders")
          saveOk 0 = .ok (out, calls) ∧
      out.status = "created" ∧ isValidUUIDString out.id = true ∧
      out.name = "example" ∧ out.count = 5) :=
  ⟨rfl, c1_valid_input_output "example" 5 { name := "example", count := 5 }
    rfl (some "orders") 0⟩

/-- C2: For every valid input, when a table name is supplied to
`process_request`, exactly one save call occurs, and the item passed
to `save_item` equals the returned output (same id, name, count and
status fields). -/
theorem c2_one_save_matches_output (name : String) (count : Int)
    (input : RequestInput)
    (_h : RequestInput.validate name count = .ok input)
    (t : String) (ht : t ≠ "") (r : Nat) :
    ∃ out call, process_request input (some t) saveOk r = .ok (out, [call]) ∧
      call.table_name = t ∧ call.item.id = out.id ∧
      call.item.name = out.name ∧ call.item.count = out.count ∧
      call.item.status = out.status :=
  ⟨_, _, process_request_save_ok input t ht saveOk r rfl,
    rfl, rfl, rfl, rfl, rfl⟩

/-- Witness for C2 at a concrete input and table name. -/
theorem c2_one_save_matches_output_witness :
    RequestInput.validate "example" 5 = .ok { name := "example", count := 5 } ∧
    "orders" ≠ "" ∧
    (∃ out call,
      process_request { name := "example", count := 5 } (some "orders")
          saveOk 0 = .ok (out, [call]) ∧
      call.table_name = "orders" ∧ call.item.id = out.id ∧
      call.item.name = out.name ∧ call.item.count = out.count ∧
      call.item.status = out.status) :=
  ⟨rfl, by decide,
    c2_one_save_matches_output "example" 5 { name := "example", count := 5 }
      rfl "orders" (by decide) 0⟩

/-- C3: When the table name is absent, the business logic returns a
successful output (the full record, status "created") without
invoking persistence: zero save calls are recorded, and the absent
table name produces no error on the request path (`process_request`
returns `.ok` for any save effect). -/
theorem c3_absent_table_skips_persistence (input : RequestInput)
    (save : SaveEffect) (r : Nat) :
    pyTruthy none = false ∧
    process_request input none save r =
      .ok ({ id := uuid4String r, name := input.name, count := input.count,
             status := "created" }, []) :=
  ⟨rfl, process_request_none input save r⟩

/-- C4: An input with count ≤ 0 or with name of length 0 or greater
than 100 is rejected by validation before the business logic runs
(zero save calls, `process_request` unreached) and surfaced as a
client error (HTTP 422). -/
theorem c4_invalid_input_rejected (env : List (String × String))
    (e : HandlerEnvVars) (henv : parseEnv env = .ok e)
    (name : String) (count : Int)
    (hbad : count ≤ 0 ∨ name.length = 0 ∨ name.length > 100)
    (save : SaveEffect) (r : Nat) :
    ∃ msg, runPipeline env name count save r =
      (.failure { error := "Validation error", details := some msg } 422, []) ∧
      (runPipeline env name count save r).1.statusCode = 422 := by
  obtain ⟨msg, hmsg⟩ := validate_err name count hbad
  refine ⟨msg, ?_, ?_⟩
  · unfold runPipeline
    rw [henv, hmsg]
  · unfold runPipeline
    rw [henv, hmsg]
    rfl

/-- Witness for C4: count 0 is rejected as a client error. -/
theorem c4_invalid_input_rejected_witness :
    parseEnv [("POWERTOOLS_SERVICE_NAME", "orders-service"),
              ("LOG_LEVEL", "INFO"),
              ("IDEMPOTENCY_TABLE_NAME", "idem"),
              ("TABLE_NAME", "orders")] =
      .ok { POWERTOOLS_SERVICE_NAME := "orders-service", LOG_LEVEL := "INFO",
            IDEMPOTENCY_TABLE_NAME := "idem", TABLE_NAME := "orders" } ∧
    ((0 : Int) ≤ 0 ∨ "example".length = 0 ∨ "example".length > 100) ∧
    (∃ msg,
      runPipeline [("POWERTOOLS_SERVICE_NAME", "orders-service"),
                   ("LOG_LEVEL", "INFO"),
                   ("IDEMPOTENCY_TABLE_NAME", "idem"),
                   ("TABLE_NAME", "orders")] "example" 0 saveOk 0 =
        (.failure { error := "Validation error", details := some msg } 422, []) ∧
      (runPipeline [("POWERTOOLS_SERVICE_NAME", "orders-service"),
                    ("LOG_LEVEL", "INFO"),
                    ("IDEMPOTENCY_TABLE_NAME", "idem"),
                    ("TABLE_NAME", "orders")] "example" 0 saveOk 0).1.statusCode
        = 422) :=
  ⟨rfl, Or.inl (by decide),
    c4_invalid_input_rejected
      [("POWERTOOLS_SERVICE_NAME", "orders-service"), ("LOG_LEVEL", "INFO"),
       ("IDEMPOTENCY_TABLE_NAME", "idem"), ("TABLE_NAME", "orders")]
      { POWERTOOLS_SERVICE_NAME := "orders-service", LOG_LEVEL := "INFO",
        IDEMPOTENCY_TABLE_NAME := "idem", TABLE_NAME := "orders" }
      rfl "example" 0 (Or.inl (by decide)) saveOk 0⟩

/-- C5: Every successfully processed request yields exactly one
persisted record; the record carries the freshly generated id
(distinct ids for distinct generated UUID values) and status
"created"; and there are no partial writes: for any save effect a
success carries exactly this one full record and a failure records
nothing. -/
theorem c5_exactly_one_record (name : String) (count : Int)
    (input : RequestInput)
    (_hval : RequestInput.validate name count = .ok input)
    (t : String) (ht : t ≠ "") (r : Nat) (store : Store) :
    ∃ out item,
      process_request input (some t) saveOk r =
        .ok (out, [{ table_name := t, item := item }]) ∧
      item.id = uuid4String r ∧ item.status = "created" ∧
      item.id = out.id ∧ item.name = out.name ∧ item.count = out.count ∧
      get_item (applyCalls store [{ table_name := t, item := item }]) t
        item.id = some item ∧
      (∀ save : SaveEffect, ∀ res,
        process_request input (some t) save r = .ok res →
        res.2 = [{ table_name := t, item := item }]) ∧
      (∀ r2 : Nat, uuid4Int r ≠ uuid4Int r2 →
        uuid4String r ≠ uuid4String r2) := by
  refine ⟨_, _, process_request_save_ok input t ht saveOk r rfl,
    rfl, rfl, rfl, rfl, rfl, ?_, ?_, fun r2 hne => uuid4String_inj r r2 hne⟩
  · show get_item (applyCalls store _) t _ = _
    exact get_item_save_item store t _
  · intro save res hres
    cases hs : save t { id := uuid4String r, name := input.name,
                        count := input.count, status := "created" } with
    | ok u =>
      cases u
      rw [process_request_save_ok input t ht save r hs] at hres
      injection hres with hres'
      rw [← hres']
    | error m =>
      rw [process_request_save_err input t ht save r m hs] at hres
      exact Except.noConfusion hres

/-- Witness for C5 at a concrete input, table and store. -/
theorem c5_exactly_one_record_witness :
    RequestInput.validate "example" 5 = .ok { name := "example", count := 5 } ∧
    "orders" ≠ "" ∧
    (∃ out item,
      process_request { name := "example", count := 5 } (some "orders")
          saveOk 0 = .ok (out, [{ table_name := "orders", item := item }]) ∧
      item.id = uuid4String 0 ∧ item.status = "created" ∧
      item.id = out.id ∧ item.name = out.name ∧ item.count = out.count ∧
      get_item (applyCalls emptyStore [{ table_name := "orders", item := item }])
        "orders" item.id = some item ∧
      (∀ save : SaveEffect, ∀ res,
        process_request { name := "example", count := 5 } (some "orders")
          save 0 = .ok res →
        res.2 = [{ table_name := "orders", item := item }]) ∧
      (∀ r2 : Nat, uuid4Int 0 ≠ uuid4Int r2 →
        uuid4String 0 ≠ uuid4String r2)) :=
  ⟨rfl, by decide,
    c5_exactly_one_record "example" 5 { name := "example", count := 5 } rfl
      "orders" (by decide) 0 emptyStore⟩

/-- C6: The request handler returns the `RequestOutput` with HTTP 200
on success, or an `ErrorOutput` with HTTP 500 on unhandled failure;
a persistence failure propagates uncaught out of the business logic
and surfaces as a generic 500 error output with no retry (zero
completed save calls). -/
theorem c6_http_outcomes (env : List (String × String)) (e : HandlerEnvVars)
    (henv : parseEnv env = .ok e) (name : String) (count : Int)
    (input : RequestInput)
    (hval : RequestInput.validate name count = .ok input)
    (r : Nat) (msg : String) :
    (∃ out calls, runPipeline env name count saveOk r = (.success out, calls) ∧
      (HandlerResult.success out).statusCode = 200) ∧
    runPipeline env name count (saveFail msg) r =
      (.failure { error := "Internal Server Error", details := none } 500,
       []) ∧
    (HandlerResult.failure
      { error := "Internal Server Error", details := none } 500).statusCode
      = 500 := by
  have hlen := parseEnv_table_len henv
  have htn : e.TABLE_NAME ≠ "" := by
    intro h0
    rw [h0] at hlen
    exact absurd hlen (by decide)
  have h200 : runPipeline env name count saveOk r =
      (.success { id := uuid4String r, name := input.name,
                  count := input.count, status := "created" },
       [{ table_name := e.TABLE_NAME,
          item := { id := uuid4String r, name := input.name,
                    count := input.count, status := "created" } }]) := by
    unfold runPipeline
    rw [henv, hval]
    show (match process_request input (some e.TABLE_NAME) saveOk r with
      | .error _ =>
        (HandlerResult.failure { error := "Internal Server Error" } 500, [])
      | .ok (out, calls) => (HandlerResult.success out, calls)) = _
    rw [process_request_save_ok input e.TABLE_NAME htn saveOk r rfl]
  have h500 : runPipeline env name count (saveFail msg) r =
      (.failure { error := "Internal Server Error", details := none } 500,
       []) := by
    unfold runPipeline
    rw [henv, hval]
    show (match process_request input (some e.TABLE_NAME) (saveFail msg) r with
      | .error _ =>
        (HandlerResult.failure { error := "Internal Server Error" } 500, [])
      | .ok (out, calls) => (HandlerResult.success out, calls)) = _
    rw [process_request_save_err input e.TABLE_NAME htn (saveFail msg) r msg rfl]
  exact ⟨⟨_, _, h200, rfl⟩, h500, rfl⟩

/-- Witness for C6 at a concrete environment and input. -/
theorem c6_http_outcomes_witness :
    parseEnv [("POWERTOOLS_SERVICE_NAME", "orders-service"),
              ("LOG_LEVEL", "INFO"),
              ("IDEMPOTENCY_TABLE_NAME", "idem"),
              ("TABLE_NAME", "orders")] =
      .ok { POWERTOOLS_SERVICE_NAME := "orders-service", LOG_LEVEL := "INFO",
            IDEMPOTENCY_TABLE_NAME := "idem", TABLE_NAME := "orders" } ∧
    RequestInput.validate "example" 5 = .ok { name := "example", count := 5 } ∧
    ((∃ out calls,
      runPipeline [("POWERTOOLS_SERVICE_NAME", "orders-service"),
                   ("LOG_LEVEL", "INFO"),
                   ("IDEMPOTENCY_TABLE_NAME", "idem"),
                   ("TABLE_NAME", "orders")] "example" 5 saveOk 0 =
        (.success out, calls) ∧
      (HandlerResult.success out).statusCode = 200) ∧
    runPipeline [("POWERTOOLS_SERVICE_NAME", "orders-service"),
                 ("LOG_LEVEL", "INFO"),
                 ("IDEMPOTENCY_TABLE_NAME", "idem"),
                 ("TABLE_NAME", "orders")] "example" 5 (saveFail "boom") 0 =
      (.failure { error := "Internal Server Error", details := none } 500,
       []) ∧
    (HandlerResult.failure
      { error := "Internal Server Error", details := none } 500).statusCode
      = 500) :=
  ⟨rfl, rfl,
    c6_http_outcomes
      [("POWERTOOLS_SERVICE_NAME", "orders-service"), ("LOG_LEVEL", "INFO"),
       ("IDEMPOTENCY_TABLE_NAME", "idem"), ("TABLE_NAME", "orders")]
      { POWERTOOLS_SERVICE_NAME := "orders-service", LOG_LEVEL := "INFO",
        IDEMPOTENCY_TABLE_NAME := "idem", TABLE_NAME := "orders" }
      rfl "example" 5 { name := "example", count := 5 } rfl 0 "boom"⟩

/-- C7: The DAL provides three operations with these contracts:
`save_item` writes or overwrites the record identified by its key
(leaving records with other keys unchanged); `get_item` returns the
stored record when one with the key exists and `none` when none
exists; `delete_item` removes the record. -/
theorem c7_dal_contracts (store : Store) (tn : String) (item : DBItem)
    (key : String) :
    get_item (save_item store tn item) tn item.id = some item ∧
    (key ≠ item.id →
      get_item (save_item store tn item) tn key = get_item store tn key) ∧
    (get_item store tn key = none ↔ ∀ rec ∈ store tn, rec.id ≠ key) ∧
    (∀ rec, get_item store tn key = some rec →
      rec ∈ store tn ∧ rec.id = key) ∧
    get_item (delete_item store tn key) tn key = none := by
  refine ⟨get_item_save_item store tn item,
    fun hk => get_item_save_item_other store tn item key hk, ?_, ?_,
    get_item_delete_item store tn key⟩
  · unfold get_item dynamoGet
    rw [List.find?_eq_none]
    constructor
    · intro hall rec hrec
      have := hall rec hrec
      simpa using this
    · intro hall x hx
      simpa using hall x hx
  · intro rec hrec
    unfold get_item dynamoGet at hrec
    exact ⟨List.mem_of_find?_eq_some hrec,
      by simpa using List.find?_some hrec⟩

/-- Witness for C7 at a concrete store, table, item and key. -/
theorem c7_dal_contracts_witness :
    get_item (save_item emptyStore "orders"
        { id := "a", name := "n", count := 1, status := "created" })
      "orders" "a" =
      some { id := "a", name := "n", count := 1, status := "created" } ∧
    ("b" ≠ "a" →
      get_item (save_item emptyStore "orders"
          { id := "a", name := "n", count := 1, status := "created" })
        "orders" "b" = get_item emptyStore "orders" "b") ∧
    (get_item emptyStore "orders" "b" = none ↔
      ∀ rec ∈ emptyStore "orders", rec.id ≠ "b") ∧
    (∀ rec, get_item emptyStore "orders" "b" = some rec →
      rec ∈ emptyStore "orders" ∧ rec.id = "b") ∧
    get_item (delete_item emptyStore "orders" "b") "orders" "b" = none :=
  c7_dal_contracts emptyStore "orders"
    { id := "a", name := "n", count := 1, status := "created" } "b"

/-- C8: The business logic's output and persisted record do not depend
on the idempotency-table environment variable: two invocations of
`process_request` that differ only in `IDEMPOTENCY_TABLE_NAME` (same
input, save effect and generated id) produce the same result — the
same output and the same save calls. -/
theorem c8_idempotency_var_unused (e : HandlerEnvVars) (v : String)
    (input : RequestInput) (save : SaveEffect) (r : Nat) :
    process_request input
        (tableNameArg { e with IDEMPOTENCY_TABLE_NAME := v }) save r =
      process_request input (tableNameArg e) save r := rfl

/-- C9: The `None` branch of the hasattr-guarded `TABLE_NAME` lookup is
unreachable: once environment validation succeeds, `HandlerEnvVars`
always carries a `TABLE_NAME` of length at least 1, so
`process_request` is always called from the handler with a non-empty
table name and persistence is always attempted on the HTTP path
(exactly one save call for every request). -/
theorem c9_none_branch_unreachable (env : List (String × String))
    (e : HandlerEnvVars) (henv : parseEnv env = .ok e) :
    hasTableNameAttr e = true ∧
    tableNameArg e = some e.TABLE_NAME ∧
    1 ≤ e.TABLE_NAME.length ∧
    ∀ input r, ∃ out item,
      process_request input (tableNameArg e) saveOk r =
        .ok (out, [{ table_name := e.TABLE_NAME, item := item }]) := by
  have hlen := parseEnv_table_len henv
  have htn : e.TABLE_NAME ≠ "" := by
    intro h0
    rw [h0] at hlen
    exact absurd hlen (by decide)
  refine ⟨rfl, rfl, hlen, fun input r => ?_⟩
  exact ⟨_, _, process_request_save_ok input e.TABLE_NAME htn saveOk r rfl⟩

/-- Witness for C9 at a concrete environment. -/
theorem c9_none_branch_unreachable_witness :
    parseEnv [("POWERTOOLS_SERVICE_NAME", "orders-service"),
              ("LOG_LEVEL", "INFO"),
              ("IDEMPOTENCY_TABLE_NAME", "idem"),
              ("TABLE_NAME", "orders")] =
      .ok { POWERTOOLS_SERVICE_NAME := "orders-service", LOG_LEVEL := "INFO",
            IDEMPOTENCY_TABLE_NAME := "idem", TABLE_NAME := "orders" } ∧
    (hasTableNameAttr
        { POWERTOOLS_SERVICE_NAME := "orders-service", LOG_LEVEL := "INFO",
          IDEMPOTENCY_TABLE_NAME := "idem", TABLE_NAME := "orders" } = true ∧
      tableNameArg
        { POWERTOOLS_SERVICE_NAME := "orders-service", LOG_LEVEL := "INFO",
          IDEMPOTENCY_TABLE_NAME := "idem", TABLE_NAME := "orders" } =
        some "orders" ∧
      1 ≤ ("orders" : String).length ∧
      ∀ input r, ∃ out item,
        process_request input
            (tableNameArg
              { POWERTOOLS_SERVICE_NAME := "orders-service",
                LOG_LEVEL := "INFO", IDEMPOTENCY_TABLE_NAME := "idem",
                TABLE_NAME := "orders" })
            saveOk r =
          .ok (out, [{ table_name := "orders", item := item }])) :=
  ⟨rfl,
    c9_none_branch_unreachable
      [("POWERTOOLS_SERVICE_NAME", "orders-service"), ("LOG_LEVEL", "INFO"),
       ("IDEMPOTENCY_TABLE_NAME", "idem"), ("TABLE_NAME", "orders")]
      { POWERTOOLS_SERVICE_NAME := "orders-service", LOG_LEVEL := "INFO",
        IDEMPOTENCY_TABLE_NAME := "idem", TABLE_NAME := "orders" }
      rfl⟩

/-- C10: `process_request` skips persistence not only when the table
name is `None` but also when it is the empty string (the guard tests
Python truthiness), and in both cases it still returns the full
successful output. -/
theorem c10_empty_table_name_skips (input : RequestInput)
    (save : SaveEffect) (r : Nat) :
    pyTruthy (some "") = false ∧ pyTruthy none = false ∧
    process_request input (some "") save r =
      .ok ({ id := uuid4String r, name := input.name, count := input.count,
             status := "created" }, []) ∧
    process_request input none save r =
      .ok ({ id := uuid4String r, name := input.name, count := input.count,
             status := "created" }, []) :=
  ⟨rfl, rfl, process_request_some_empty input save r,
    process_request_none input save r⟩

end Service
